import Mathlib

/-!
Verification of the conflict-detection and scheduling-validation engine of the
Cronograma Unificado FCC application (src/app.py).

Shallow embedding conventions:
* Calendar dates are day indices (Nat); two sessions meet on the same day iff
  their day indices are equal.  Clock times are minutes since midnight (Nat),
  so for example 8:00 is 480 and 19:00 is 1140.
* A committed-schedule row (one record of the cronograma table) is a Row.
  Pass-through columns that the engine never reads (credits, contract type,
  estimated students, room requirements, cost centre, description) are omitted;
  they do not influence any control flow in the checked code.
* pandas boolean-mask filtering is List.filter, iloc 0 on a non-empty
  selection is List.head?, and the per-new-row loop of check_db_conflicts is
  List.flatMap over the body row_conflicts.
* Conflict messages are modelled as structured values carrying exactly the
  data interpolated into the corresponding f-string of the source.
-/

/-- A committed or candidate schedule row, as stored in the cronograma table
(src/app.py load_schedule_data and the records built in the submit handler). -/
structure Row where
  id : String
  nombreClase : String
  programa : String
  semestre : Nat
  profesor : String
  simultaneo : Bool
  modulo : Nat
  sesion : Nat
  fecha : Nat
  horaInicio : Nat
  horaFin : Nat
deriving DecidableEq, Repr

/-- Default row used only to state getD-based index lookups. -/
def defaultRow : Row :=
  { id := "", nombreClase := "", programa := "", semestre := 0, profesor := ""
    simultaneo := false, modulo := 0, sesion := 0, fecha := 0
    horaInicio := 0, horaFin := 0 }

instance : Inhabited Row := ⟨defaultRow⟩

/-- The guard of check_self_overlap (src/app.py lines 196-197): same date and
strict half-open interval intersection. -/
def self_overlap_cond (r1 r2 : Row) : Bool :=
  (r1.fecha == r2.fecha) &&
    (decide (r1.horaInicio < r2.horaFin) && decide (r2.horaInicio < r1.horaFin))

/-- The two time comparisons of the pandas masks in check_db_conflicts
(src/app.py lines 213-214 and 228-229): existing start before the new end and
existing end after the new start. -/
def db_overlap_cond (e row : Row) : Bool :=
  decide (e.horaInicio < row.horaFin) && decide (e.horaFin > row.horaInicio)

/-- An internal overlap finding of check_self_overlap: the zero-based
positions of the two colliding sessions and the shared date (the rendered
message of src/app.py line 198 shows the positions plus one). -/
structure SelfConflict where
  sesion1 : Nat
  sesion2 : Nat
  fecha : Nat
deriving DecidableEq, Repr

/-- Loop body of check_self_overlap over itertools.combinations of the
enumerated rows: the head row is paired with every later row in order, then
the tail is processed recursively (src/app.py lines 195-198). -/
def self_overlap_pairs : List (Nat × Row) → List SelfConflict
  | [] => []
  | (i, r1) :: rest =>
      rest.filterMap (fun p =>
        if self_overlap_cond r1 p.2 then some ⟨i, p.1, r1.fecha⟩ else none)
      ++ self_overlap_pairs rest

/-- check_self_overlap (src/app.py lines 192-199): pairwise comparison of the
submitted sessions among themselves, indices taken from the row enumeration. -/
def check_self_overlap (df : List Row) : List SelfConflict :=
  self_overlap_pairs df.enum

/-- A finding of check_db_conflicts, carrying the data interpolated into the
corresponding message (src/app.py lines 218-221 and 233-238): the instructor
message names the new row's professor, the existing class and its times; the
cohort message names the new row's program, the existing row's semester, the
existing class and its times. -/
inductive DBConflict where
  | instructor (profesor claseExistente : String) (fecha hi hf : Nat)
  | cohort (programa : String) (semestre : Nat) (claseExistente : String)
      (fecha hi hf : Nat)
deriving DecidableEq, Repr

/-- Kind test: is the finding an instructor conflict. -/
def DBConflict.isInstructor : DBConflict → Bool
  | .instructor _ _ _ _ _ => true
  | _ => false

/-- Kind test: is the finding a student-cohort conflict. -/
def DBConflict.isCohort : DBConflict → Bool
  | .cohort _ _ _ _ _ _ => true
  | _ => false

/-- Body of the per-new-session loop of check_db_conflicts (src/app.py lines
206-238): narrow the committed schedule to the new row's date, report the
first professor collision of that day if any, and, when the new class does not
allow simultaneity, the first same-program same-semester collision among the
existing rows that also disallow simultaneity. -/
def row_conflicts (row : Row) (existing : List Row) : List DBConflict :=
  let day_schedule := existing.filter (fun e => e.fecha == row.fecha)
  if day_schedule.isEmpty then []
  else
    let prof_conflict := day_schedule.filter (fun e =>
      (e.profesor == row.profesor) && db_overlap_cond e row)
    let instr_msgs : List DBConflict :=
      match prof_conflict.head? with
      | some info =>
          [.instructor row.profesor info.nombreClase row.fecha
            info.horaInicio info.horaFin]
      | none => []
    let cohort_msgs : List DBConflict :=
      if row.simultaneo = false then
        let student_conflict := day_schedule.filter (fun e =>
          (e.programa == row.programa) && ((e.semestre == row.semestre) &&
            (db_overlap_cond e row && (e.simultaneo == false))))
        match student_conflict.head? with
        | some info =>
            [.cohort row.programa info.semestre info.nombreClase row.fecha
              info.horaInicio info.horaFin]
        | none => []
      else []
    instr_msgs ++ cohort_msgs

/-- check_db_conflicts (src/app.py lines 201-239): nothing to report against
an empty schedule, otherwise the new sessions are processed in submission
order and their findings concatenated. -/
def check_db_conflicts (new_class existing : List Row) : List DBConflict :=
  if existing.isEmpty then []
  else new_class.flatMap (fun row => row_conflicts row existing)

/-- End-of-session computation (src/app.py lines 589-590): the start time
plus a whole number of hours, taken as a wall-clock time, which silently wraps
past midnight. -/
def hora_fin (horaInicio duracion : Nat) : Nat :=
  (horaInicio + 60 * duracion) % 1440

/-- One session as entered in the form (date picker, start-time selector and
duration in whole hours, src/app.py lines 584-587), together with the
professor and module assigned to it. -/
structure SessionInput where
  profesor : String
  modulo : Nat
  fecha : Nat
  horaInicio : Nat
  duracion : Nat
deriving DecidableEq, Repr

/-- The general data of the form (Paso 1) plus the composed sessions. -/
structure SubmitForm where
  descripcion : String
  catalogo : String
  nombreClase : String
  programa : String
  semestre : Nat
  simultaneo : Bool
  sesiones : List SessionInput
deriving DecidableEq, Repr

/-- Removal of blanks as done by nombre_clase.replace(' ', '') on line 666. -/
def remove_spaces (s : String) : String :=
  ⟨s.data.filter (fun c => c ≠ ' ')⟩

/-- First n characters of a string, as the Python slice [:5] on line 666. -/
def take_chars (n : Nat) (s : String) : String :=
  ⟨s.data.take n⟩

/-- Session identifier built on src/app.py line 666: catalog code, a dash,
the first five non-blank characters of the class name, and the session
number prefixed by dash-S. -/
def mkID (catalogo nombreClase : String) (ses : Nat) : String :=
  catalogo ++ "-" ++ take_chars 5 (remove_spaces nombreClase) ++ "-S" ++ toString ses

/-- The records built by the submit handler (src/app.py lines 665-684) from
the form data: session numbers count from one in submission order, the end
time is the wall-clock hora_fin, and all rows share the class metadata. -/
def buildRecords (form : SubmitForm) : List Row :=
  form.sesiones.enum.map (fun p =>
    { id := mkID form.catalogo form.nombreClase (p.1 + 1)
      nombreClase := form.nombreClase
      programa := form.programa
      semestre := form.semestre
      profesor := p.2.profesor
      simultaneo := form.simultaneo
      modulo := p.2.modulo
      sesion := p.1 + 1
      fecha := p.2.fecha
      horaInicio := p.2.horaInicio
      horaFin := hora_fin p.2.horaInicio p.2.duracion })

/-- Outcome of one submission, mirroring which branch of the submit handler
(src/app.py lines 650-706) is taken. -/
inductive SubmitResult where
  | missingGeneralData
  | sessionEndsAfter7pm
  | missingProfesor
  | selfConflicts (cs : List SelfConflict)
  | dbConflicts (cs : List DBConflict)
  | accepted (rows : List Row)
deriving DecidableEq, Repr

/-- Kind test: did the submission reach the accept path. -/
def SubmitResult.isAccepted : SubmitResult → Bool
  | .accepted _ => true
  | _ => false

/-- The submit handler (src/app.py lines 650-706) as a function from the form
and the committed schedule to an outcome and the resulting schedule: the three
precondition guards in source order, then check_self_overlap, then
check_db_conflicts, and only when every check passes are the new rows appended
to the committed schedule.  The source runs the self check on the bare session
table built on line 658 whose date and time columns coincide with those of the
final records, so the check is stated on the records themselves. -/
def submit (form : SubmitForm) (schedule : List Row) : SubmitResult × List Row :=
  if form.descripcion = "" ∨ form.catalogo = "" ∨ form.nombreClase = "" ∨
      form.programa = "" then
    (.missingGeneralData, schedule)
  else if (buildRecords form).any (fun s => decide (1140 < s.horaFin)) then
    (.sessionEndsAfter7pm, schedule)
  else if (buildRecords form).any (fun s => s.profesor == "") then
    (.missingProfesor, schedule)
  else
    let rows := buildRecords form
    let self_conflicts := check_self_overlap rows
    if self_conflicts ≠ [] then (.selfConflicts self_conflicts, schedule)
    else
      let db_conflicts := check_db_conflicts rows schedule
      if db_conflicts ≠ [] then (.dbConflicts db_conflicts, schedule)
      else (.accepted rows, schedule ++ rows)

/-- Character-list test that pat is an initial segment of s, the semantics of
the SQL pattern LIKE pat-percent issued on src/app.py line 787. -/
def chars_initial : List Char → List Char → Bool
  | [], _ => true
  | _ :: _, [] => false
  | a :: as, b :: bs => a == b && chars_initial as bs

/-- LIKE match with a trailing percent wildcard. -/
def likeMatch (pat s : String) : Bool := chars_initial pat.data s.data

/-- The delete handler (src/app.py lines 783-793): the catalog code extracted
from the selected label is sent as delete like ID catalog-percent, removing
every row whose ID string starts with the catalog code. -/
def delete_class (catalogo : String) (schedule : List Row) : List Row :=
  schedule.filter (fun r => !(likeMatch catalogo r.id))

/-- Modelled from the spec wording of the Self-Consistency Checker output:
exhaustively test all unordered pairs i smaller than j with the interval
overlap test, emitting one conflict per overlapping pair, ordered by i
ascending then j ascending.  Compared against check_self_overlap. -/
def selfOverlapSpec (df : List Row) : List SelfConflict :=
  (List.range df.length).flatMap (fun i =>
    (List.range df.length).filterMap (fun j =>
      if i < j ∧ self_overlap_cond (df.getD i defaultRow) (df.getD j defaultRow) = true
      then some ⟨i, j, (df.getD i defaultRow).fecha⟩ else none))

/-- Concrete committed row used to instantiate universally quantified
theorems: MBA semester 1, Garcia, 8:00 to 10:00 on day 10, simultaneity
disabled. -/
def wExisting : Row :=
  { id := "3001-Finan-S1", nombreClase := "Finanzas", programa := "MBA"
    semestre := 1, profesor := "Garcia", simultaneo := false, modulo := 1
    sesion := 1, fecha := 10, horaInicio := 480, horaFin := 600 }

/-- Concrete candidate row overlapping wExisting: same program, semester,
professor and date, 9:00 to 11:00, simultaneity disabled. -/
def wNew : Row :=
  { id := "3002-Merca-S1", nombreClase := "Mercadeo", programa := "MBA"
    semestre := 1, profesor := "Garcia", simultaneo := false, modulo := 1
    sesion := 1, fecha := 10, horaInicio := 540, horaFin := 660 }

/-- Form with two internally overlapping sessions on the same day, 8:00 to
10:00 and 9:30 to 11:30, otherwise fully valid. -/
def formSelfClash : SubmitForm :=
  { descripcion := "Curso base", catalogo := "4100", nombreClase := "Estrategia"
    programa := "MBA", semestre := 1, simultaneo := false
    sesiones := [⟨"Garcia", 1, 20, 480, 2⟩, ⟨"Garcia", 1, 20, 570, 2⟩] }

/-- Form whose only session starts at 18:30 with a six hour duration, so the
computed end time wraps past midnight to 0:30; used for the precondition
claim. -/
def formWrapPre : SubmitForm :=
  { descripcion := "Taller nocturno", catalogo := "9000", nombreClase := "Taller"
    programa := "MBA", semestre := 1, simultaneo := false
    sesiones := [⟨"Garcia", 1, 40, 1110, 6⟩] }

/-- Form identical in shape to formWrapPre, used for the wall-clock wrap
claim: one session starting 18:30 with a six hour duration. -/
def formWrapClock : SubmitForm :=
  { descripcion := "Seminario nocturno", catalogo := "9100", nombreClase := "Seminario"
    programa := "Finanzas", semestre := 2, simultaneo := false
    sesiones := [⟨"Lopez", 1, 41, 1110, 6⟩] }

/-- Committed row of the class with catalog code 10. -/
def rowCatalog10 : Row :=
  { id := mkID "10" "Algebra Lineal" 1, nombreClase := "Algebra Lineal"
    programa := "MBA", semestre := 1, profesor := "Garcia", simultaneo := false
    modulo := 1, sesion := 1, fecha := 20, horaInicio := 480, horaFin := 600 }

/-- Committed row of a different class whose catalog code 101 has the other
class's catalog code 10 as a proper string start. -/
def rowCatalog101 : Row :=
  { id := mkID "101" "Calculo" 1, nombreClase := "Calculo"
    programa := "Finanzas", semestre := 2, profesor := "Lopez", simultaneo := false
    modulo := 1, sesion := 1, fecha := 21, horaInicio := 600, horaFin := 720 }

/-- Claim C3: the interval overlap test shared by the self check and the
repository check is true exactly when the dates are equal and the half-open
time intervals intersect strictly; the mask used by check_db_conflicts,
together with its same-date narrowing, computes the same test; sessions on
different dates never conflict, and abutting sessions do not conflict. -/
theorem overlap_test_characterization (a b : Row) :
    (self_overlap_cond a b = true ↔
      (a.fecha = b.fecha ∧ a.horaInicio < b.horaFin ∧ b.horaInicio < a.horaFin)) ∧
    ((a.fecha == b.fecha) && db_overlap_cond a b) = self_overlap_cond a b ∧
    (a.fecha ≠ b.fecha → self_overlap_cond a b = false) ∧
    (b.horaInicio = a.horaFin → self_overlap_cond a b = false) := by
  refine ⟨?_, ?_, ?_, ?_⟩
  · simp [self_overlap_cond, and_assoc]
  · rfl
  · intro h
    simp [self_overlap_cond, h]
  · intro h
    simp [self_overlap_cond, h]

/-- Witness for the overlap characterization at concrete rows on different
days. -/
theorem overlap_test_characterization_witness :
    self_overlap_cond { defaultRow with fecha := 1 } { defaultRow with fecha := 2 } = false :=
  (overlap_test_characterization { defaultRow with fecha := 1 }
    { defaultRow with fecha := 2 }).2.2.1 (by decide)

/-- Claim C4, code evaluated at the failing input: a session starting at
18:30 with a six hour duration has computed end 0:30, not after its start,
yet the submission passes every precondition guard, the overlap logic runs
and the class is accepted.  The handler checks only that no end time exceeds
19:00, never that the end is after the start. -/
theorem malformed_session_reaches_overlap_logic :
    (∃ r ∈ buildRecords formWrapPre, r.horaFin ≤ r.horaInicio) ∧
    (submit formWrapPre []).1.isAccepted = true := by decide

/-- Claim C5, code evaluated at the failing input: deleting the class with
catalog code 10 issues a LIKE prefix match on the ID column, which also
removes the session of the unrelated class with catalog code 101, leaving the
schedule empty. -/
theorem delete_by_catalog_removes_other_class :
    rowCatalog10.id = "10-Algeb-S1" ∧
    rowCatalog101.id = "101-Calcu-S1" ∧
    delete_class "10" [rowCatalog10, rowCatalog101] = [] := by decide

/-- Claim C10: the composed end time is the start plus the duration taken as
a wall-clock value modulo 24 hours; at start 18:30 and duration six hours the
end is 0:30, strictly before the start, the submission passes validation and
the wrapped session is persisted into the committed schedule. -/
theorem hora_fin_wraps_and_persists :
    (∀ horaInicio duracion, hora_fin horaInicio duracion =
      (horaInicio + 60 * duracion) % 1440) ∧
    hora_fin 1110 6 = 30 ∧
    (submit formWrapClock []).1.isAccepted = true ∧
    (∃ r ∈ (submit formWrapClock []).2, r.horaFin < r.horaInicio) :=
  ⟨fun _ _ => rfl, by decide, by decide, by decide⟩

/-- Claim C9: a submission that does not reach the accept branch leaves the
committed schedule exactly as it was, and a submission that is accepted has
passed both checks and appends all its rows in one unit. -/
theorem rejection_preserves_schedule (form : SubmitForm) (sched : List Row) :
    ((submit form sched).1.isAccepted = false → (submit form sched).2 = sched) ∧
    ((submit form sched).1.isAccepted = true →
      (submit form sched).2 = sched ++ buildRecords form ∧
      check_self_overlap (buildRecords form) = [] ∧
      check_db_conflicts (buildRecords form) sched = []) := by
  simp only [submit]
  split_ifs with h1 h2 h3 h4 h5 <;>
    simp_all [SubmitResult.isAccepted]

/-- Witness for the schedule preservation theorem: a submission with an
internal clash is rejected and the schedule is unchanged. -/
theorem rejection_preserves_schedule_witness :
    (submit formSelfClash [wExisting]).2 = [wExisting] :=
  (rejection_preserves_schedule formSelfClash [wExisting]).1 (by decide)

/-- Claim C1: against a committed session on the same date with the same
program and semester and an overlapping interval, a student-cohort conflict
is reported exactly when both the new class and the existing class have the
simultaneity flag disabled. -/
theorem cohort_conflict_iff_both_exclusive (row e : Row)
    (hfecha : e.fecha = row.fecha) (hprog : e.programa = row.programa)
    (hsem : e.semestre = row.semestre)
    (h1 : e.horaInicio < row.horaFin) (h2 : row.horaInicio < e.horaFin) :
    ((check_db_conflicts [row] [e]).any DBConflict.isCohort = true ↔
      (row.simultaneo = false ∧ e.simultaneo = false)) := by
  by_cases hp : e.profesor = row.profesor <;>
    cases hr : row.simultaneo <;> cases he : e.simultaneo <;>
    simp [check_db_conflicts, row_conflicts, db_overlap_cond, DBConflict.isCohort,
      hfecha, hprog, hsem, h1, h2, hr, he, hp]

/-- Witness for the cohort characterization: both flags disabled at concrete
overlapping rows of the same program and semester. -/
theorem cohort_conflict_iff_both_exclusive_witness :
    ((check_db_conflicts [wNew] [wExisting]).any DBConflict.isCohort = true ↔
      (wNew.simultaneo = false ∧ wExisting.simultaneo = false)) :=
  cohort_conflict_iff_both_exclusive wNew wExisting (by decide) (by decide)
    (by decide) (by decide) (by decide)

/-- Claim C2: whenever the committed schedule contains a session on the same
date with the same professor and an overlapping interval, the repository
check reports an instructor conflict; no simultaneity flag is consulted. -/
theorem instructor_conflict_unconditional (new_class sched : List Row) (row e : Row)
    (hrow : row ∈ new_class) (he : e ∈ sched)
    (hfecha : e.fecha = row.fecha) (hprof : e.profesor = row.profesor)
    (h1 : e.horaInicio < row.horaFin) (h2 : e.horaFin > row.horaInicio) :
    ∃ c ∈ check_db_conflicts new_class sched, c.isInstructor = true := by
  have hsched : sched.isEmpty = false := by
    cases sched with
    | nil => cases he
    | cons a l => rfl
  have hday : e ∈ sched.filter (fun x => x.fecha == row.fecha) :=
    List.mem_filter.mpr ⟨he, by simp [hfecha]⟩
  have hdayE : (sched.filter (fun x => x.fecha == row.fecha)).isEmpty = false := by
    cases hlist : sched.filter (fun x => x.fecha == row.fecha) with
    | nil => rw [hlist] at hday; cases hday
    | cons a l => rfl
  have hpc : e ∈ (sched.filter (fun x => x.fecha == row.fecha)).filter
      (fun x => (x.profesor == row.profesor) && db_overlap_cond x row) :=
    List.mem_filter.mpr ⟨hday, by simp [hprof, db_overlap_cond, h1, h2]⟩
  obtain ⟨info, hinfo⟩ : ∃ info, ((sched.filter (fun x => x.fecha == row.fecha)).filter
      (fun x => (x.profesor == row.profesor) && db_overlap_cond x row)).head? = some info := by
    cases hlist : (sched.filter (fun x => x.fecha == row.fecha)).filter
        (fun x => (x.profesor == row.profesor) && db_overlap_cond x row) with
    | nil => rw [hlist] at hpc; cases hpc
    | cons a l => exact ⟨a, rfl⟩
  refine ⟨.instructor row.profesor info.nombreClase row.fecha info.horaInicio info.horaFin,
    ?_, rfl⟩
  rw [check_db_conflicts, if_neg (by simp [hsched])]
  refine List.mem_flatMap.mpr ⟨row, hrow, ?_⟩
  simp only [row_conflicts, hdayE, hinfo, Bool.false_eq_true, if_false]
  exact List.mem_append_left _ (List.mem_singleton.mpr rfl)

/-- Witness for the unconditional instructor conflict at concrete rows with
the same professor on the same day. -/
theorem instructor_conflict_unconditional_witness :
    ∃ c ∈ check_db_conflicts [wNew] [wExisting], c.isInstructor = true :=
  instructor_conflict_unconditional [wNew] [wExisting] wNew wExisting
    (by decide) (by decide) (by decide) (by decide) (by decide) (by decide)

/-- Claim C8: when the preconditions hold and the self check finds at least
one internal conflict, the submission is rejected with exactly those
diagnostics, the schedule is untouched, and the outcome is the same whatever
the committed schedule contains, so the repository check never runs. -/
theorem self_check_short_circuits (form : SubmitForm) (sched sched2 : List Row)
    (hfields : ¬(form.descripcion = "" ∨ form.catalogo = "" ∨
      form.nombreClase = "" ∨ form.programa = ""))
    (hhora : (buildRecords form).any (fun s => decide (1140 < s.horaFin)) = false)
    (hprof : (buildRecords form).any (fun s => s.profesor == "") = false)
    (hself : check_self_overlap (buildRecords form) ≠ []) :
    submit form sched =
      (.selfConflicts (check_self_overlap (buildRecords form)), sched) ∧
    (submit form sched).1 = (submit form sched2).1 := by
  have h : ∀ s : List Row, submit form s =
      (.selfConflicts (check_self_overlap (buildRecords form)), s) := by
    intro s
    simp only [submit, hhora, hprof, Bool.false_eq_true, if_false]
    rw [if_neg hfields, if_pos hself]
  exact ⟨h sched, by rw [h sched, h sched2]⟩

/-- Witness for the self-check short circuit: a class with two overlapping
sessions is rejected identically against the empty and a populated
schedule. -/
theorem self_check_short_circuits_witness :
    submit formSelfClash [] =
      (.selfConflicts (check_self_overlap (buildRecords formSelfClash)), []) ∧
    (submit formSelfClash []).1 = (submit formSelfClash [wExisting]).1 :=
  self_check_short_circuits formSelfClash [] [wExisting]
    (by decide) (by decide) (by decide) (by decide)

/-- Claim C6: the repository check processes the new sessions in submission
order; per new session it reports at most one instructor conflict and at most
one cohort conflict, and the conflict of each kind, when present, is built
from the first committed session in stored order satisfying the corresponding
full match condition. -/
theorem db_reports_first_match_only (new_class existing : List Row) (row : Row) :
    check_db_conflicts new_class existing =
      new_class.flatMap (fun r => row_conflicts r existing) ∧
    (row_conflicts row existing).countP DBConflict.isInstructor ≤ 1 ∧
    (row_conflicts row existing).countP DBConflict.isCohort ≤ 1 ∧
    ((row_conflicts row existing).filter DBConflict.isInstructor =
      match (existing.filter (fun x =>
          ((x.profesor == row.profesor) && db_overlap_cond x row) &&
            (x.fecha == row.fecha))).head? with
        | some e => [DBConflict.instructor row.profesor e.nombreClase row.fecha
            e.horaInicio e.horaFin]
        | none => []) ∧
    ((row_conflicts row existing).filter DBConflict.isCohort =
      if row.simultaneo = false then
        match (existing.filter (fun x =>
            ((x.programa == row.programa) && ((x.semestre == row.semestre) &&
              (db_overlap_cond x row && (x.simultaneo == false)))) &&
              (x.fecha == row.fecha))).head? with
          | some e => [DBConflict.cohort row.programa e.semestre e.nombreClase
              row.fecha e.horaInicio e.horaFin]
          | none => []
      else []) := by
  have hfilt1 : existing.filter (fun x =>
      ((x.profesor == row.profesor) && db_overlap_cond x row) &&
        (x.fecha == row.fecha)) =
      (existing.filter (fun e => e.fecha == row.fecha)).filter (fun e =>
        (e.profesor == row.profesor) && db_overlap_cond e row) :=
    (List.filter_filter _ _).symm
  have hfilt2 : existing.filter (fun x =>
      ((x.programa == row.programa) && ((x.semestre == row.semestre) &&
        (db_overlap_cond x row && (x.simultaneo == false)))) &&
        (x.fecha == row.fecha)) =
      (existing.filter (fun e => e.fecha == row.fecha)).filter (fun e =>
        (e.programa == row.programa) && ((e.semestre == row.semestre) &&
          (db_overlap_cond e row && (e.simultaneo == false)))) :=
    (List.filter_filter _ _).symm
  have hflat : check_db_conflicts new_class existing =
      new_class.flatMap (fun r => row_conflicts r existing) := by
    by_cases hemp : existing.isEmpty = true
    · rw [List.isEmpty_iff.mp hemp]
      rw [check_db_conflicts]
      simp [row_conflicts]
    · rw [check_db_conflicts, if_neg hemp]
  by_cases hde : (existing.filter (fun e => e.fecha == row.fecha)).isEmpty = true
  · have hnil : existing.filter (fun e => e.fecha == row.fecha) = [] :=
      List.isEmpty_iff.mp hde
    have hrc : row_conflicts row existing = [] := by
      simp [row_conflicts, hnil]
    refine ⟨hflat, ?_, ?_, ?_, ?_⟩
    · simp [hrc]
    · simp [hrc]
    · rw [hrc, hfilt1, hnil]
      simp
    · rw [hrc, hfilt2, hnil]
      cases hsim : row.simultaneo <;> simp [hsim]
  · have hrw : row_conflicts row existing =
        (match ((existing.filter (fun e => e.fecha == row.fecha)).filter (fun e =>
            (e.profesor == row.profesor) && db_overlap_cond e row)).head? with
          | some info => [DBConflict.instructor row.profesor info.nombreClase row.fecha
              info.horaInicio info.horaFin]
          | none => []) ++
        (if row.simultaneo = false then
          match ((existing.filter (fun e => e.fecha == row.fecha)).filter (fun e =>
              (e.programa == row.programa) && ((e.semestre == row.semestre) &&
                (db_overlap_cond e row && (e.simultaneo == false))))).head? with
            | some info => [DBConflict.cohort row.programa info.semestre info.nombreClase
                row.fecha info.horaInicio info.horaFin]
            | none => []
         else []) := by
      simp only [row_conflicts]
      rw [if_neg hde]
    refine ⟨hflat, ?_, ?_, ?_, ?_⟩
    · rw [hrw, List.countP_append]
      cases hh1 : ((existing.filter (fun e => e.fecha == row.fecha)).filter (fun e =>
          (e.profesor == row.profesor) && db_overlap_cond e row)).head? <;>
        cases hsim : row.simultaneo <;>
        cases hh2 : ((existing.filter (fun e => e.fecha == row.fecha)).filter (fun e =>
            (e.programa == row.programa) && ((e.semestre == row.semestre) &&
              (db_overlap_cond e row && (e.simultaneo == false))))).head? <;>
        simp [hh1, hsim, hh2, DBConflict.isInstructor, DBConflict.isCohort]
    · rw [hrw, List.countP_append]
      cases hh1 : ((existing.filter (fun e => e.fecha == row.fecha)).filter (fun e =>
          (e.profesor == row.profesor) && db_overlap_cond e row)).head? <;>
        cases hsim : row.simultaneo <;>
        cases hh2 : ((existing.filter (fun e => e.fecha == row.fecha)).filter (fun e =>
            (e.programa == row.programa) && ((e.semestre == row.semestre) &&
              (db_overlap_cond e row && (e.simultaneo == false))))).head? <;>
        simp [hh1, hsim, hh2, DBConflict.isInstructor, DBConflict.isCohort]
    · rw [hrw, List.filter_append, hfilt1]
      cases hh1 : ((existing.filter (fun e => e.fecha == row.fecha)).filter (fun e =>
          (e.profesor == row.profesor) && db_overlap_cond e row)).head? <;>
        cases hsim : row.simultaneo <;>
        cases hh2 : ((existing.filter (fun e => e.fecha == row.fecha)).filter (fun e =>
            (e.programa == row.programa) && ((e.semestre == row.semestre) &&
              (db_overlap_cond e row && (e.simultaneo == false))))).head? <;>
        simp [hh1, hsim, hh2, DBConflict.isInstructor, DBConflict.isCohort]
    · rw [hrw, List.filter_append, hfilt2]
      cases hh1 : ((existing.filter (fun e => e.fecha == row.fecha)).filter (fun e =>
          (e.profesor == row.profesor) && db_overlap_cond e row)).head? <;>
        cases hsim : row.simultaneo <;>
        cases hh2 : ((existing.filter (fun e => e.fecha == row.fecha)).filter (fun e =>
            (e.programa == row.programa) && ((e.semestre == row.semestre) &&
              (db_overlap_cond e row && (e.simultaneo == false))))).head? <;>
        simp [hh1, hsim, hh2, DBConflict.isInstructor, DBConflict.isCohort]

/-- Witness for the first-match theorem at a concrete one-row schedule. -/
theorem db_reports_first_match_only_witness :
    check_db_conflicts [wNew] [wExisting] =
      [wNew].flatMap (fun r => row_conflicts r [wExisting]) ∧
    (row_conflicts wNew [wExisting]).countP DBConflict.isInstructor ≤ 1 :=
  ⟨(db_reports_first_match_only [wNew] [wExisting] wNew).1,
   (db_reports_first_match_only [wNew] [wExisting] wNew).2.1⟩

/-- Enumerating from a successor start is enumerating from the predecessor
start with every index raised by one. -/
theorem enumFrom_succ_eq_map (rs : List Row) :
    ∀ k, rs.enumFrom (k + 1) = (rs.enumFrom k).map (fun p => (p.1 + 1, p.2)) := by
  induction rs with
  | nil => intro k; rfl
  | cons x xs ih =>
      intro k
      show (k + 1, x) :: xs.enumFrom (k + 2) =
        (k + 1, x) :: (xs.enumFrom (k + 1)).map (fun p => (p.1 + 1, p.2))
      rw [ih (k + 1)]

/-- A filterMap over an enumerated list is a filterMap over the positions. -/
theorem filterMap_enumFrom_eq_range {β : Type} (g : Nat × Row → Option β) :
    ∀ (rs : List Row) (k : Nat),
      (rs.enumFrom k).filterMap g =
        (List.range rs.length).filterMap (fun j => g (j + k, rs.getD j defaultRow)) := by
  intro rs
  induction rs with
  | nil => intro k; rfl
  | cons x xs ih =>
      intro k
      show List.filterMap g ((k, x) :: xs.enumFrom (k + 1)) = _
      rw [List.filterMap_cons, ih (k + 1), List.length_cons, List.range_succ_eq_map,
        List.filterMap_cons, List.filterMap_map]
      have harg : ((fun j => g (j + k, (x :: xs).getD j defaultRow)) ∘ Nat.succ) =
          (fun j => g (j + (k + 1), xs.getD j defaultRow)) := by
        funext j
        have h1 : Nat.succ j + k = j + (k + 1) := by omega
        simp only [Function.comp_apply, List.getD_cons_succ, h1]
      have harg0 : (fun j => g (j + k, (x :: xs).getD j defaultRow)) 0 = g (k, x) := by
        simp
      rw [harg]
      simp only [harg0]

/-- Raising every enumeration index by one raises both reported positions of
every internal conflict by one. -/
theorem self_overlap_pairs_shift (l : List (Nat × Row)) :
    self_overlap_pairs (l.map (fun p => (p.1 + 1, p.2))) =
      (self_overlap_pairs l).map (fun c => ⟨c.sesion1 + 1, c.sesion2 + 1, c.fecha⟩) := by
  induction l with
  | nil => rfl
  | cons hd tl ih =>
      obtain ⟨i, r1⟩ := hd
      simp only [List.map_cons, self_overlap_pairs, List.map_append, ih,
        List.filterMap_map, List.map_filterMap]
      congr 1
      refine congrArg (fun h => List.filterMap h tl) (funext fun p => ?_)
      by_cases h : self_overlap_cond r1 p.2 = true <;>
        simp [h, Function.comp]

/-- Changing only the professor of every enumerated row leaves the internal
overlap report unchanged. -/
theorem self_overlap_pairs_profesor_update (g : Row → String) :
    ∀ l : List (Nat × Row),
      self_overlap_pairs (l.map (Prod.map id (fun x => { x with profesor := g x }))) =
        self_overlap_pairs l := by
  intro l
  induction l with
  | nil => rfl
  | cons hd tl ih =>
      obtain ⟨i, r1⟩ := hd
      simp only [List.map_cons, Prod.map, id, self_overlap_pairs, ih,
        List.filterMap_map]
      try congr 1
      try exact congrArg (fun h => List.filterMap h tl) (funext fun p => rfl)

/-- Claim C7: the self check coincides with the specification enumeration of
all unordered pairs with the first index ascending and the second index
ascending, one conflict exactly for each overlapping pair; a single-session
class yields no conflicts; and the report never depends on the professor
identities. -/
theorem check_self_overlap_matches_spec (df : List Row) (r : Row) (g : Row → String) :
    check_self_overlap df = selfOverlapSpec df ∧
    check_self_overlap [r] = [] ∧
    check_self_overlap (df.map (fun x => { x with profesor := g x })) =
      check_self_overlap df := by
  refine ⟨?_, rfl, ?_⟩
  · induction df with
    | nil => rfl
    | cons r0 rs ih =>
      show (rs.enumFrom 1).filterMap (fun p =>
            if self_overlap_cond r0 p.2 then some ⟨0, p.1, r0.fecha⟩ else none)
          ++ self_overlap_pairs (rs.enumFrom 1) = selfOverlapSpec (r0 :: rs)
      rw [filterMap_enumFrom_eq_range, enumFrom_succ_eq_map rs 0,
        self_overlap_pairs_shift,
        show self_overlap_pairs (rs.enumFrom 0) = selfOverlapSpec rs from ih]
      simp only [selfOverlapSpec, List.length_cons, List.range_succ_eq_map,
        List.flatMap_cons, List.flatMap_map, List.map_flatMap, List.map_filterMap,
        List.filterMap_cons, List.filterMap_map, List.getD_cons_zero,
        List.getD_cons_succ, Function.comp, Nat.succ_eq_add_one,
        lt_self_iff_false, false_and, if_false, Nat.zero_lt_succ, true_and]
      congr 1
      · refine congrArg (fun h => List.filterMap h (List.range rs.length))
          (funext fun j => ?_)
        simp [Function.comp, List.getD_cons_succ]
      · refine congrArg (fun h => (List.range rs.length).flatMap h)
          (funext fun a => ?_)
        simp only [Nat.not_lt_zero, false_and, if_false]
        refine congrArg (fun h => List.filterMap h (List.range rs.length))
          (funext fun x => ?_)
        by_cases h : a < x ∧
            self_overlap_cond (rs.getD a defaultRow) (rs.getD x defaultRow) = true
        · simp [Function.comp, List.getD_cons_succ, h, Nat.add_lt_add_iff_right]
        · simp [Function.comp, List.getD_cons_succ, h, Nat.add_lt_add_iff_right]
  · rw [show check_self_overlap (df.map (fun x => { x with profesor := g x })) =
        self_overlap_pairs ((df.map (fun x => { x with profesor := g x })).enum) from rfl,
      List.enum_map]
    exact self_overlap_pairs_profesor_update g df.enum
